import Mathlib

/-!
# Verification of the PostgreSQL → Elasticsearch location sync script

Shallow embedding of `scripts/sync_to_elasticsearch.py` (class `LocationSyncer`).
Python floats carrying boost scores are modelled as rationals (they are only
ever compared to literals, never computed with), SQL `NULL` as `Option`,
Python dict tag payloads as association lists, and the `re` digit class `\d`
as ASCII digits.  The Elasticsearch and psycopg2 collaborators are modelled
as explicit parameters (a JSON parser, a spatial parent-lookup, a file
system), mirroring the request/response contracts the script uses.
-/

namespace SyncES

/-- A tag mapping (Python dict of string keys and values, e.g. parsed HSTORE). -/
def TagMap : Type := List (String × String)

/-- The raw `tags` column value as it reaches the Python code:
SQL NULL, a string payload, or an already-structured mapping. -/
inductive TagPayload where
  | null : TagPayload
  | str : String → TagPayload
  | obj : TagMap → TagPayload

/-- Model of `json.loads` restricted to payloads that parse to objects:
`.error` stands for `json.loads` raising (malformed input).  JSON strings
that parse to non-object values are outside this model. -/
def JsonLoads : Type := String → Except Unit TagMap

/-- `tags.get(k)`: first binding of key `k` in the mapping, if any. -/
def tagsGet (m : TagMap) (k : String) : Option String :=
  (List.find? (fun kv => kv.1 == k) m).map (fun kv => kv.2)

/-- The tag-normalisation step shared by all four generators
(`if isinstance(tags, str): try: tags = json.loads(tags) if tags else {}
except: tags = {}  elif tags is None: tags = {}`). -/
def normalizeTags (jl : JsonLoads) : TagPayload → TagMap
  | .null => []
  | .obj m => m
  | .str s =>
      if s == "" then []
      else match jl s with
        | .ok m => m
        | .error _ => []

/-- `tags.get('name:en', default)`. -/
def nameEn (tags : TagMap) (default : String) : String :=
  (tagsGet tags "name:en").getD default

/-- Python truthiness of an optional numeric column (`row.get('lat')` in an
`if` position): `None` and `0.0` are falsy. -/
def truthyNum : Option ℚ → Bool
  | none => false
  | some q => q != 0

/-- Python `x or y` on an optional string and a string default
(`name_ne or name`): `None` and `''` fall through to the default. -/
def pyOrStr (a : Option String) (b : String) : String :=
  match a with
  | none => b
  | some s => if s == "" then b else s

/-- The `location` sub-document: `{'lat': row['lat'], 'lon': row['lon']}`.
Either member may be SQL NULL. -/
structure Location where
  lat : Option ℚ
  lon : Option ℚ
  deriving DecidableEq

/-- `{'lat': ..., 'lon': ...} if row.get('lat') else None` — the guard tests
Python truthiness of `lat` alone. -/
def locationOf (lat lon : Option ℚ) : Option Location :=
  if truthyNum lat then some ⟨lat, lon⟩ else none

/-- The Python value handed to `_calculate_boost` as `subtype`:
`row.get('place_type')` (a string or None) or `row.get('admin_level')`
(an integer or None). -/
inductive PyVal where
  | noneV : PyVal
  | strV : String → PyVal
  | intV : Int → PyVal

/-- `subtype in [list of strings]`. -/
def inStrList : PyVal → List String → Bool
  | .strV s, l => l.contains s
  | _, _ => false

/-- `subtype in [list of ints]`. -/
def inIntList : PyVal → List Int → Bool
  | .intV n, l => l.contains n
  | _, _ => false

/-- `subtype == 4` for an int literal. -/
def eqIntVal : PyVal → Int → Bool
  | .intV n, m => n == m
  | _, _ => false

/-- Lift `row.get('place_type')` into a Python value. -/
def pyOfStr : Option String → PyVal
  | none => .noneV
  | some s => .strV s

/-- Lift `row.get('admin_level')` into a Python value. -/
def pyOfInt : Option Int → PyVal
  | none => .noneV
  | some n => .intV n

/-- `LocationSyncer._calculate_boost`. -/
def calculateBoost (entity_type : String) (subtype : PyVal) : ℚ :=
  if entity_type == "place" then
    if inStrList subtype ["city", "town"] then 2
    else if inStrList subtype ["village", "suburb"] then 3/2
    else 1
  else if entity_type == "admin_boundary" then
    if inIntList subtype [6, 7] then 9/5
    else if eqIntVal subtype 4 then 3/2
    else 6/5
  else if entity_type == "poi" then 1/2
  else 3/10

/-- Python `str.join` on a list of strings. -/
def pyJoin (sep : String) : List String → String
  | [] => ""
  | [s] => s
  | s :: t :: rest => s ++ sep ++ pyJoin sep (t :: rest)

/-- `LocationSyncer._build_search_text`: the five `row.get(..., '')`
values (a missing key gives `''`, a NULL value gives None which the
`filter(None, parts)` drops exactly like `''`), filtered to the truthy
ones and joined with single spaces. -/
def buildSearchText (name name_ne municipality district province : Option String) : String :=
  pyJoin " "
    (([name.getD "", name_ne.getD "", municipality.getD "",
       district.getD "", province.getD ""]).filter (fun s => !(s == "")))

/-- Decimal digit characters to the integer they denote (`int(...)` on a
digit string). -/
def digitsToNat (ds : List Char) : Nat :=
  ds.foldl (fun a c => 10 * a + (c.toNat - 48)) 0

/-- First code points of the 10-character runs making up Unicode general
category `Nd` (decimal digits), Unicode 15.1 — the class Python's `re`
module matches for `\d` on `str` patterns and whose members `int()`
parses by decimal value. -/
def ndFirst : List Nat :=
  [0x30, 0x660, 0x6F0, 0x7C0, 0x966, 0x9E6, 0xA66, 0xAE6, 0xB66, 0xBE6,
   0xC66, 0xCE6, 0xD66, 0xDE6, 0xE50, 0xED0, 0xF20, 0x1040, 0x1090,
   0x17E0, 0x1810, 0x1946, 0x19D0, 0x1A80, 0x1A90, 0x1B50, 0x1BB0,
   0x1C40, 0x1C50, 0xA620, 0xA8D0, 0xA900, 0xA9D0, 0xA9F0, 0xAA50,
   0xABF0, 0xFF10, 0x104A0, 0x10D30, 0x11066, 0x110F0, 0x11136,
   0x111D0, 0x112F0, 0x11450, 0x114D0, 0x11650, 0x116C0, 0x11730,
   0x118E0, 0x11950, 0x11C50, 0x11D50, 0x11DA0, 0x11F50, 0x16A60,
   0x16AC0, 0x16B50, 0x1D7CE, 0x1D7D8, 0x1D7E2, 0x1D7EC, 0x1D7F6,
   0x1E140, 0x1E2F0, 0x1E4F0, 0x1E950, 0x1FBF0]

/-- The decimal value of a character when it is a Unicode decimal digit
(each `Nd` run is ten consecutive code points for 0–9). -/
def pyDigitVal? (c : Char) : Option Nat :=
  (ndFirst.find? (fun lo => lo ≤ c.toNat && c.toNat ≤ lo + 9)).map
    (fun lo => c.toNat - lo)

/-- Python's `\d` on a `str` pattern: any Unicode decimal digit, not
just ASCII `0-9`. -/
def pyIsDigit (c : Char) : Bool := (pyDigitVal? c).isSome

/-- `int(...)` on a string of Unicode decimal digits (what
`int(match.group(2))` computes, e.g. also for Devanagari digits). -/
def digitsVal (ds : List Char) : Nat :=
  ds.foldl (fun a c => 10 * a + (pyDigitVal? c).getD 0) 0

/-- One decimal digit as a character. -/
def digitChar (n : Nat) : Char :=
  match n with
  | 0 => '0' | 1 => '1' | 2 => '2' | 3 => '3' | 4 => '4'
  | 5 => '5' | 6 => '6' | 7 => '7' | 8 => '8' | _ => '9'

/-- Decimal representation of a natural number (PostgreSQL `id::text`),
most significant digit first. -/
def natDecChars (n : Nat) : List Char :=
  if _h : n < 10 then [digitChar n]
  else natDecChars (n / 10) ++ [digitChar (n % 10)]
  termination_by n
  decreasing_by exact Nat.div_lt_self (by omega) (by omega)

/-- The four entity types synced in one run. -/
inductive EntityType where
  | place | adminBoundary | poi | road
  deriving DecidableEq

/-- The literal document-id head attached per entity type in the SQL
(`'place_' || id::text`, `'admin_' || ...`, `'poi_' || ...`, `'road_' || ...`,
without the underscore). -/
def typeTag : EntityType → String
  | .place => "place"
  | .adminBoundary => "admin"
  | .poi => "poi"
  | .road => "road"

/-- The document id `{type tag}_{source id}` computed in each SQL query. -/
def docIdFor (t : EntityType) (id : Nat) : String :=
  typeTag t ++ "_" ++ ⟨natDecChars id⟩

/-- Greedy match of `re.match(r'^(.+)-(\d+)$', name)` in
`_build_admin_hierarchy` (ward branch): the maximal trailing run of
Unicode decimal digits, preceded by a hyphen, preceded by a non-empty
remainder.  Returns `(group(1), int(group(2)))`.  Matches Python
semantics for names without newline characters (`.` excludes `'\n'` and
`$` treats a trailing newline specially). -/
def wardSplit (name : String) : Option (String × Nat) :=
  match name.data.reverse.takeWhile pyIsDigit,
        name.data.reverse.dropWhile pyIsDigit with
  | d :: ds, c :: p :: ps =>
      if c = '-' then some (⟨(p :: ps).reverse⟩, digitsVal ((d :: ds).reverse))
      else none
  | _, _ => none

/-- Spec-side reading of the ward-name pattern `<municipality>-<digits>`:
the name is a non-empty municipality part, a hyphen, and a non-empty
all-digit tail — the digits follow the final hyphen of the name, since
the tail contains no hyphen. -/
def wardPattern (name : String) (pre : String) (ds : List Char) : Prop :=
  name.data = pre.data ++ '-' :: ds ∧ pre.data ≠ [] ∧ ds ≠ [] ∧
    ∀ c ∈ ds, pyIsDigit c

/-- The resolved ancestor chain for a boundary document. -/
structure Hierarchy where
  ward : Option Nat
  municipality : Option String
  municipality_ne : Option String
  district : Option String
  district_ne : Option String
  province : Option String
  province_ne : Option String
  deriving DecidableEq

/-- All-unset hierarchy (the initial dict in `_build_admin_hierarchy`). -/
def emptyHierarchy : Hierarchy :=
  ⟨none, none, none, none, none, none, none⟩

/-- Row returned by `_get_parent_admin`'s spatial query. -/
structure ParentAdmin where
  district : Option String
  district_ne : Option String
  province : Option String
  province_ne : Option String
  deriving DecidableEq

/-- The spatial parent lookup as seen from `_build_admin_hierarchy`:
WKT centroid text to an optional parent row (None also covers the
`except` branch of `_get_parent_admin`). -/
def ParentLookup : Type := String → Option ParentAdmin

/-- A row of `normalized.admin_boundaries` as selected by
`sync_admin_boundaries` (`name` is non-NULL by the `WHERE` filter). -/
structure BoundaryRow where
  id : Nat
  name : String
  name_ne : Option String
  admin_level : Int
  boundary_type : Option String
  lat : Option ℚ
  lon : Option ℚ
  centroid : Option String
  tags : TagPayload

/-- `LocationSyncer._build_admin_hierarchy`. -/
def buildAdminHierarchy (lookup : ParentLookup) (r : BoundaryRow) : Hierarchy :=
  if r.admin_level == 4 then
    { emptyHierarchy with
        province := some r.name
        province_ne := some (pyOrStr r.name_ne r.name) }
  else if r.admin_level == 6 then
    let base := { emptyHierarchy with
        district := some r.name
        district_ne := some (pyOrStr r.name_ne r.name) }
    match r.centroid with
    | none => base
    | some c =>
        if c == "" then base
        else match lookup c with
          | none => base
          | some parent =>
              { base with
                  province := parent.province
                  province_ne := parent.province_ne }
  else if r.admin_level == 7 then
    let base := { emptyHierarchy with
        municipality := some r.name
        municipality_ne := some (pyOrStr r.name_ne r.name) }
    match r.centroid with
    | none => base
    | some c =>
        if c == "" then base
        else match lookup c with
          | none => base
          | some parent =>
              { base with
                  district := parent.district
                  district_ne := parent.district_ne
                  province := parent.province
                  province_ne := parent.province_ne }
  else if r.admin_level == 9 then
    let base :=
      match wardSplit r.name with
      | none => emptyHierarchy
      | some (pre, n) =>
          { emptyHierarchy with
              municipality := some pre
              municipality_ne := some pre
              ward := some n }
    match r.centroid with
    | none => base
    | some c =>
        if c == "" then base
        else match lookup c with
          | none => base
          | some parent =>
              { base with
                  district := parent.district
                  district_ne := parent.district_ne
                  province := parent.province
                  province_ne := parent.province_ne }
  else emptyHierarchy

/-- A row of `normalized.places` as selected by `sync_places`
(`name` is non-NULL by the `WHERE` filter). -/
structure PlaceRow where
  id : Nat
  name : String
  name_ne : Option String
  place_type : Option String
  admin_level : Option Int
  lat : Option ℚ
  lon : Option ℚ
  ward : Option Int
  municipality : Option String
  district : Option String
  province : Option String
  tags : TagPayload

/-- The `_source` dict built for a place. -/
structure PlaceDoc where
  id : String
  entity_type : String
  name : String
  name_ne : Option String
  name_en : String
  place_type : Option String
  admin_level : Option Int
  location : Option Location
  ward : Option Int
  municipality : Option String
  municipality_ne : Option String
  district : Option String
  district_ne : Option String
  province : Option String
  province_ne : Option String
  country : String
  boost_score : ℚ
  search_text : String

/-- Document construction inside `sync_places.generate_docs`. -/
def placeDoc (jl : JsonLoads) (r : PlaceRow) : PlaceDoc :=
  let tags := normalizeTags jl r.tags
  { id := docIdFor .place r.id
    entity_type := "place"
    name := r.name
    name_ne := r.name_ne
    name_en := nameEn tags r.name
    place_type := r.place_type
    admin_level := r.admin_level
    location := locationOf r.lat r.lon
    ward := r.ward
    municipality := r.municipality
    municipality_ne := r.municipality
    district := r.district
    district_ne := r.district
    province := r.province
    province_ne := r.province
    country := "Nepal"
    boost_score := calculateBoost "place" (pyOfStr r.place_type)
    search_text := buildSearchText (some r.name) r.name_ne
      r.municipality r.district r.province }

/-- The `_source` dict built for an admin boundary. -/
structure AdminDoc where
  id : String
  entity_type : String
  name : String
  name_ne : Option String
  name_en : String
  admin_level : Int
  location : Option Location
  ward : Option Nat
  municipality : Option String
  municipality_ne : Option String
  district : Option String
  district_ne : Option String
  province : Option String
  province_ne : Option String
  country : String
  boost_score : ℚ
  search_text : String

/-- Document construction inside `sync_admin_boundaries.generate_docs`.
The boundary query selects no `municipality`/`district`/`province`
columns, so `_build_search_text`'s `row.get` calls on those keys yield
the `''` default. -/
def adminDoc (jl : JsonLoads) (lookup : ParentLookup) (r : BoundaryRow) : AdminDoc :=
  let tags := normalizeTags jl r.tags
  let hierarchy := buildAdminHierarchy lookup r
  { id := docIdFor .adminBoundary r.id
    entity_type := "admin_boundary"
    name := r.name
    name_ne := r.name_ne
    name_en := nameEn tags r.name
    admin_level := r.admin_level
    location := locationOf r.lat r.lon
    ward := hierarchy.ward
    municipality := hierarchy.municipality
    municipality_ne := hierarchy.municipality_ne
    district := hierarchy.district
    district_ne := hierarchy.district_ne
    province := hierarchy.province
    province_ne := hierarchy.province_ne
    country := "Nepal"
    boost_score := calculateBoost "admin_boundary" (.intV r.admin_level)
    search_text := buildSearchText (some r.name) r.name_ne none none none }

/-- A row of `normalized.poi` as selected by `sync_poi`. -/
structure PoiRow where
  id : Nat
  name : String
  lat : Option ℚ
  lon : Option ℚ
  tags : TagPayload

/-- The `_source` dict built for a POI. -/
structure PoiDoc where
  id : String
  entity_type : String
  name : String
  name_en : String
  location : Option Location
  country : String
  boost_score : ℚ
  tags : TagMap
  search_text : String

/-- Document construction inside `sync_poi.generate_docs`. -/
def poiDoc (jl : JsonLoads) (r : PoiRow) : PoiDoc :=
  let tags := normalizeTags jl r.tags
  { id := docIdFor .poi r.id
    entity_type := "poi"
    name := r.name
    name_en := nameEn tags r.name
    location := locationOf r.lat r.lon
    country := "Nepal"
    boost_score := 1/2
    tags := tags
    search_text := r.name }

/-- A row of `normalized.named_roads` as selected by `sync_roads`. -/
structure RoadRow where
  id : Nat
  name : String
  tags : TagPayload

/-- The `_source` dict built for a road. -/
structure RoadDoc where
  id : String
  entity_type : String
  name : String
  name_en : String
  country : String
  boost_score : ℚ
  search_text : String

/-- Document construction inside `sync_roads.generate_docs`. -/
def roadDoc (jl : JsonLoads) (r : RoadRow) : RoadDoc :=
  let tags := normalizeTags jl r.tags
  { id := docIdFor .road r.id
    entity_type := "road"
    name := r.name
    name_en := nameEn tags r.name
    country := "Nepal"
    boost_score := 3/10
    search_text := r.name }

/-- A query point (the boundary centroid handed to `ST_Contains`). -/
def Point : Type := ℚ × ℚ

/-- A stored row of `normalized.admin_boundaries` as `_get_parent_admin`
sees it: name fields, level, and its polygon as a containment predicate
(`ST_Contains(geom, point)`). -/
structure AdminB where
  name : Option String
  name_ne : Option String
  admin_level : Int
  contains_pt : Point → Bool

/-- `LocationSyncer._get_parent_admin`'s query:
`FROM admin_boundaries d CROSS JOIN admin_boundaries p WHERE
d.admin_level = 6 AND p.admin_level = 4 AND ST_Contains(d.geom, pt)
AND ST_Contains(p.geom, pt) LIMIT 1`, then `fetchone()`. -/
def getParentAdmin (table : List AdminB) (pt : Point) : Option ParentAdmin :=
  (((table.filter (fun d => d.admin_level == 6 && d.contains_pt pt)).flatMap
      (fun d => (table.filter (fun p => p.admin_level == 4 && p.contains_pt pt)).map
        (fun p => (d, p)))).head?).map
    (fun dp => ⟨dp.1.name, dp.1.name_ne, dp.2.name, dp.2.name_ne⟩)

/-! ### `create_index` mapping load -/

/-- Python exceptions distinguished by `create_index`'s handler. -/
inductive PyErr where
  | fileNotFound
  | typeError
  deriving DecidableEq

/-- Which index mapping ends up being used. -/
inductive MappingVal where
  | fromFile (path : String)
  | builtinDefault
  deriving DecidableEq

/-- The file system as `create_index` probes it. -/
structure FileSys where
  pathExists : String → Bool

/-- First candidate mapping location (Docker path). -/
def dockerMappingPath : String := "/app/mappings/nepal_locations.json"

/-- Second candidate mapping location (relative to the script). -/
def localMappingPath : String :=
  "../elasticsearch/mappings/nepal_locations.json"

/-- The `mapping_paths` candidate list. -/
def mappingPaths : List String := [dockerMappingPath, localMappingPath]

/-- The `for path in mapping_paths: if os.path.exists(path)` scan;
`mapping_path` stays `None` when no candidate exists. -/
def findMappingPath (fs : FileSys) : Option String :=
  mappingPaths.find? fs.pathExists

/-- `open(mapping_path, 'r')` + `json.load`: `open(None)` raises
`TypeError`; a path that vanished raises `FileNotFoundError`. -/
def openJson (fs : FileSys) : Option String → Except PyErr MappingVal
  | none => .error .typeError
  | some p => if fs.pathExists p then .ok (.fromFile p) else .error .fileNotFound

/-- The mapping-loading prefix of `create_index`: the `try` block around
`open`/`json.load` whose `except` clause catches only
`FileNotFoundError` (falling back to `_get_default_mapping`). -/
def loadMapping (fs : FileSys) : Except PyErr MappingVal :=
  match openJson fs (findMappingPath fs) with
  | .ok m => .ok m
  | .error .fileNotFound => .ok .builtinDefault
  | .error .typeError => .error .typeError

/-! ### `sync_all` control flow -/

/-- The stages `sync_all` runs in order inside its `try` block. -/
inductive Stage where
  | connectDb | createIdx | places | adminB | poi | roads
  deriving DecidableEq

/-- `LocationSyncer.sync_all`: each stage either returns or raises
(`Except`).  The single `try/except` wraps the whole sequence; the
handler logs and calls `sys.exit(1)`.  Returns the list of stages that
were started and the process exit code. -/
def syncAllRun (E : Type) (cdb cidx : Except E Unit)
    (pl ad po ro : Except E Nat) : List Stage × Nat :=
  match cdb with
  | .error _ => ([.connectDb], 1)
  | .ok _ =>
    match cidx with
    | .error _ => ([.connectDb, .createIdx], 1)
    | .ok _ =>
      match pl with
      | .error _ => ([.connectDb, .createIdx, .places], 1)
      | .ok _ =>
        match ad with
        | .error _ => ([.connectDb, .createIdx, .places, .adminB], 1)
        | .ok _ =>
          match po with
          | .error _ => ([.connectDb, .createIdx, .places, .adminB, .poi], 1)
          | .ok _ =>
            match ro with
            | .error _ =>
                ([.connectDb, .createIdx, .places, .adminB, .poi, .roads], 1)
            | .ok _ =>
                ([.connectDb, .createIdx, .places, .adminB, .poi, .roads], 0)

/-- A JSON parser that always fails (stand-in for malformed payloads). -/
def jlFail : JsonLoads := fun _ => .error ()

/-- Spec-side reading of the search-text rule: walk the fields in their
fixed order, keep the non-empty ones, and join with single spaces
(no separator contributed by omitted fields). -/
def specJoin : List String → String
  | [] => ""
  | s :: rest =>
      let r := specJoin rest
      if s = "" then r else if r = "" then s else s ++ " " ++ r

end SyncES

namespace SyncES

/-- C10: For every place record, the localized hierarchy fields
`municipality_ne`, `district_ne` and `province_ne` of the produced
document are copies of the record's default `municipality`, `district`
and `province` values — no separately localized names are used. -/
theorem localized_hierarchy_copies_default (jl : JsonLoads) (r : PlaceRow) :
    (placeDoc jl r).municipality_ne = r.municipality ∧
    (placeDoc jl r).district_ne = r.district ∧
    (placeDoc jl r).province_ne = r.province ∧
    (placeDoc jl r).municipality = r.municipality ∧
    (placeDoc jl r).district = r.district ∧
    (placeDoc jl r).province = r.province :=
  ⟨rfl, rfl, rfl, rfl, rfl, rfl⟩

/-- C3: boost scores computed by the four builders are exactly the tiers
fixed by entity type and subtype: places tier on `place_type`
(city/town 2.0, village/suburb 1.5, other 1.0), boundaries tier on
`admin_level` (6/7 → 1.8, 4 → 1.5, other 1.2), every POI gets 0.5
and every road 0.3. -/
theorem boost_score_tiers :
    (∀ (jl : JsonLoads) (r : PlaceRow),
        (r.place_type = some "city" ∨ r.place_type = some "town") →
        (placeDoc jl r).boost_score = 2) ∧
    (∀ (jl : JsonLoads) (r : PlaceRow),
        (r.place_type = some "village" ∨ r.place_type = some "suburb") →
        (placeDoc jl r).boost_score = 3/2) ∧
    (∀ (jl : JsonLoads) (r : PlaceRow),
        r.place_type ∉ ([some "city", some "town", some "village",
          some "suburb"] : List (Option String)) →
        (placeDoc jl r).boost_score = 1) ∧
    (∀ (jl : JsonLoads) (lookup : ParentLookup) (r : BoundaryRow),
        (r.admin_level = 6 ∨ r.admin_level = 7) →
        (adminDoc jl lookup r).boost_score = 9/5) ∧
    (∀ (jl : JsonLoads) (lookup : ParentLookup) (r : BoundaryRow),
        r.admin_level = 4 →
        (adminDoc jl lookup r).boost_score = 3/2) ∧
    (∀ (jl : JsonLoads) (lookup : ParentLookup) (r : BoundaryRow),
        r.admin_level ∉ ([4, 6, 7] : List Int) →
        (adminDoc jl lookup r).boost_score = 6/5) ∧
    (∀ (jl : JsonLoads) (r : PoiRow), (poiDoc jl r).boost_score = 1/2) ∧
    (∀ (jl : JsonLoads) (r : RoadRow), (roadDoc jl r).boost_score = 3/10) := by
  refine ⟨?_, ?_, ?_, ?_, ?_, ?_, ?_, ?_⟩
  · rintro jl r (h | h) <;>
      simp [placeDoc, calculateBoost, pyOfStr, h, inStrList]
  · rintro jl r (h | h) <;>
      simp [placeDoc, calculateBoost, pyOfStr, h, inStrList]
  · intro jl r h
    simp only [List.mem_cons, List.not_mem_nil, or_false] at h
    push_neg at h
    obtain ⟨h1, h2, h3, h4⟩ := h
    cases hp : r.place_type with
    | none => simp [placeDoc, calculateBoost, pyOfStr, inStrList, hp]
    | some s =>
        rw [hp] at h1 h2 h3 h4
        have g1 : s ≠ "city" := fun hs => h1 (by rw [hs])
        have g2 : s ≠ "town" := fun hs => h2 (by rw [hs])
        have g3 : s ≠ "village" := fun hs => h3 (by rw [hs])
        have g4 : s ≠ "suburb" := fun hs => h4 (by rw [hs])
        simp [placeDoc, calculateBoost, pyOfStr, inStrList, hp, g1, g2, g3, g4]
  · rintro jl lookup r (h | h) <;>
      simp [adminDoc, calculateBoost, inIntList, eqIntVal, inStrList, h]
  · intro jl lookup r h
    simp [adminDoc, calculateBoost, inIntList, eqIntVal, inStrList, h]
  · intro jl lookup r h
    simp only [List.mem_cons, List.not_mem_nil, or_false] at h
    push_neg at h
    obtain ⟨h4, h6, h7⟩ := h
    simp [adminDoc, calculateBoost, inIntList, eqIntVal, inStrList, h4, h6, h7]
  · intro jl r; rfl
  · intro jl r; rfl

/-- Witness for `boost_score_tiers`: concrete rows hitting each guarded
tier. -/
theorem boost_score_tiers_witness :
    (placeDoc jlFail
      ⟨1, "Kathmandu", none, some "city", none, none, none, none, none,
       none, none, .null⟩).boost_score = 2 ∧
    (placeDoc jlFail
      ⟨2, "Sundarijal", none, some "village", none, none, none, none, none,
       none, none, .null⟩).boost_score = 3/2 ∧
    (placeDoc jlFail
      ⟨3, "Thamel", none, some "hamlet", none, none, none, none, none,
       none, none, .null⟩).boost_score = 1 ∧
    (adminDoc jlFail (fun _ => none)
      ⟨4, "Kaski", none, 7, none, none, none, none, .null⟩).boost_score = 9/5 ∧
    (adminDoc jlFail (fun _ => none)
      ⟨5, "Gandaki", none, 4, none, none, none, none, .null⟩).boost_score = 3/2 ∧
    (adminDoc jlFail (fun _ => none)
      ⟨6, "Kathmandu-5", none, 9, none, none, none, none, .null⟩).boost_score = 6/5 := by
  refine ⟨?_, ?_, ?_, ?_, ?_, ?_⟩
  · exact boost_score_tiers.1 jlFail _ (Or.inl rfl)
  · exact boost_score_tiers.2.1 jlFail _ (Or.inl rfl)
  · exact boost_score_tiers.2.2.1 jlFail _ (by decide)
  · exact boost_score_tiers.2.2.2.1 jlFail _ _ (Or.inr rfl)
  · exact boost_score_tiers.2.2.2.2.1 jlFail _ _ rfl
  · exact boost_score_tiers.2.2.2.2.2.1 jlFail _ _ (by decide)

/-- C4 (code bug): when no mapping file exists at any candidate location,
`mapping_path` is `None`, `open(None)` raises `TypeError`, and the
`except FileNotFoundError` clause does not catch it — `create_index`
raises instead of falling back to the built-in default mapping.  A file
present at a candidate path is loaded normally. -/
theorem mapping_missing_raises :
    loadMapping ⟨fun _ => false⟩ = .error .typeError ∧
    loadMapping ⟨fun p => p == dockerMappingPath⟩ =
      .ok (.fromFile dockerMappingPath) := by
  constructor
  · rfl
  · rfl

/-- C5 counterexample: with the places pipeline raising and every other
stage fine, `sync_all` never starts the admin-boundary, POI or road
pipelines and exits 1 — an error in one entity type's pipeline does
prevent the remaining entity types from running. -/
theorem sync_abort_counterexample :
    Stage.adminB ∉
      (syncAllRun Unit (.ok ()) (.ok ()) (.error ()) (.ok 0) (.ok 0) (.ok 0)).1 ∧
    Stage.poi ∉
      (syncAllRun Unit (.ok ()) (.ok ()) (.error ()) (.ok 0) (.ok 0) (.ok 0)).1 ∧
    Stage.roads ∉
      (syncAllRun Unit (.ok ()) (.ok ()) (.error ()) (.ok 0) (.ok 0) (.ok 0)).1 ∧
    (syncAllRun Unit (.ok ()) (.ok ()) (.error ()) (.ok 0) (.ok 0) (.ok 0)).2 = 1 := by
  decide

/-- C5 amended: an error raised inside any one entity type's pipeline
aborts the run — `sync_all`'s single top-level handler catches it, logs,
and exits non-zero; no later entity type's pipeline is started.  Stated
for a failure of each of the four pipelines in turn. -/
theorem sync_abort_behavior (E : Type) (e : E) (n m k : Nat)
    (ad po ro : Except E Nat) :
    syncAllRun E (.ok ()) (.ok ()) (.error e) ad po ro =
      ([.connectDb, .createIdx, .places], 1) ∧
    syncAllRun E (.ok ()) (.ok ()) (.ok n) (.error e) po ro =
      ([.connectDb, .createIdx, .places, .adminB], 1) ∧
    syncAllRun E (.ok ()) (.ok ()) (.ok n) (.ok m) (.error e) ro =
      ([.connectDb, .createIdx, .places, .adminB, .poi], 1) ∧
    syncAllRun E (.ok ()) (.ok ()) (.ok n) (.ok m) (.ok k) (.error e) =
      ([.connectDb, .createIdx, .places, .adminB, .poi, .roads], 1) :=
  ⟨rfl, rfl, rfl, rfl⟩

/-- C6: a tag payload that is a string `json.loads` cannot parse never
aborts document construction in any of the four generators: the tag
mapping degrades to the empty mapping and `name_en` falls back to the
record's display name. -/
theorem malformed_tags_degrade (jl : JsonLoads) (s : String)
    (hjl : jl s = .error ()) (lookup : ParentLookup)
    (rp : PlaceRow) (rb : BoundaryRow) (rq : PoiRow) (rr : RoadRow)
    (hp : rp.tags = .str s) (hb : rb.tags = .str s)
    (hq : rq.tags = .str s) (hr : rr.tags = .str s) :
    normalizeTags jl (.str s) = [] ∧
    (placeDoc jl rp).name_en = rp.name ∧
    (adminDoc jl lookup rb).name_en = rb.name ∧
    (poiDoc jl rq).name_en = rq.name ∧
    (roadDoc jl rr).name_en = rr.name := by
  have hnorm : normalizeTags jl (.str s) = [] := by
    by_cases he : s == ""
    · simp [normalizeTags, he]
    · simp [normalizeTags, he, hjl]
  refine ⟨hnorm, ?_, ?_, ?_, ?_⟩
  · simp [placeDoc, hp, hnorm, nameEn, tagsGet, List.find?]
  · simp [adminDoc, hb, hnorm, nameEn, tagsGet, List.find?]
  · simp [poiDoc, hq, hnorm, nameEn, tagsGet, List.find?]
  · simp [roadDoc, hr, hnorm, nameEn, tagsGet, List.find?]

/-- Witness for `malformed_tags_degrade`: a concrete non-JSON tag string
on one concrete record per entity type. -/
theorem malformed_tags_degrade_witness :
    normalizeTags jlFail (.str "\x7bnot json") = [] ∧
    (placeDoc jlFail
      ⟨1, "Pokhara", none, none, none, none, none, none, none, none, none,
       .str "\x7bnot json"⟩).name_en = "Pokhara" := by
  have h := malformed_tags_degrade jlFail "\x7bnot json" rfl (fun _ => none)
    ⟨1, "Pokhara", none, none, none, none, none, none, none, none, none,
     .str "\x7bnot json"⟩
    ⟨1, "Kaski", none, 6, none, none, none, none, .str "\x7bnot json"⟩
    ⟨1, "Tribhuvan Airport", none, none, .str "\x7bnot json"⟩
    ⟨1, "Ring Road", .str "\x7bnot json"⟩
    rfl rfl rfl rfl
  exact ⟨h.1, h.2.1⟩

/-- C7 counterexample: a record with latitude `0.0` and non-null
longitude — both source coordinates are non-null, yet the built document
has no `location`, because the guard `if row.get('lat')` tests Python
truthiness and `0.0` is falsy. -/
theorem location_truthiness_counterexample :
    (placeDoc jlFail
      ⟨1, "EquatorPoint", none, none, none, some 0, some 85, none, none,
       none, none, .null⟩).location = none ∧
    (⟨1, "EquatorPoint", none, none, none, some 0, some 85, none, none,
       none, none, .null⟩ : PlaceRow).lat = some 0 ∧
    (⟨1, "EquatorPoint", none, none, none, some 0, some 85, none, none,
       none, none, .null⟩ : PlaceRow).lon = some 85 := by
  refine ⟨?_, rfl, rfl⟩
  rfl

/-- C7 amended: in the place, boundary and POI builders the `location`
field is present exactly when the source latitude is non-null and
non-zero (Python truthiness of `row.get('lat')`); when present it holds
the source `lat` and `lon` values unchanged — `lon` may still be null.
A latitude of exactly `0.0` suppresses `location` even with non-null
coordinates. -/
theorem location_presence_amended :
    (∀ (jl : JsonLoads) (r : PlaceRow),
        (placeDoc jl r).location = locationOf r.lat r.lon) ∧
    (∀ (jl : JsonLoads) (lookup : ParentLookup) (r : BoundaryRow),
        (adminDoc jl lookup r).location = locationOf r.lat r.lon) ∧
    (∀ (jl : JsonLoads) (r : PoiRow),
        (poiDoc jl r).location = locationOf r.lat r.lon) ∧
    (∀ lat lon : Option ℚ,
        (locationOf lat lon = none ↔ (lat = none ∨ lat = some 0)) ∧
        (∀ loc : Location, locationOf lat lon = some loc →
            loc.lat = lat ∧ loc.lon = lon ∧ lat ≠ none ∧ lat ≠ some 0)) := by
  refine ⟨fun jl r => rfl, fun jl lookup r => rfl, fun jl r => rfl,
    fun lat lon => ⟨?_, ?_⟩⟩
  · cases lat with
    | none => simp [locationOf, truthyNum]
    | some q =>
        by_cases hq : q = 0
        · simp [locationOf, truthyNum, hq]
        · simp [locationOf, truthyNum, hq]
  · intro loc hloc
    cases lat with
    | none => simp [locationOf, truthyNum] at hloc
    | some q =>
        by_cases hq : q = 0
        · simp [locationOf, truthyNum, hq] at hloc
        · simp only [locationOf, truthyNum] at hloc
          rw [if_pos (by simp [hq])] at hloc
          cases hloc
          exact ⟨rfl, rfl, by simp, by simp [hq]⟩

/-- A join of a non-empty head is never the empty string. -/
theorem pyJoin_cons_ne_empty (t : String) (ts : List String) (ht : t ≠ "") :
    pyJoin " " (t :: ts) ≠ "" := by
  cases ts with
  | nil => simpa [pyJoin] using ht
  | cons u us =>
      intro h
      have hlen := congrArg String.length h
      simp [pyJoin, String.length_append] at hlen
      exact absurd hlen.1.2 (by decide)

/-- `' '.join(filter(None, parts))` computes the spec-side join: keep
the non-empty entries in order, join with single spaces. -/
theorem pyJoin_filter_eq_specJoin (l : List String) :
    pyJoin " " (l.filter (fun s => !(s == ""))) = specJoin l := by
  induction l with
  | nil => rfl
  | cons s rest ih =>
      by_cases hs : s = ""
      · subst hs
        rw [List.filter_cons_of_neg (by simp)]
        rw [ih]
        simp [specJoin]
      · rw [List.filter_cons_of_pos (by simp [hs])]
        rcases hrest : rest.filter (fun s => !(s == "")) with _ | ⟨t, ts⟩
        · rw [hrest] at ih
          simp [pyJoin, specJoin, hs, ← ih]
        · rw [hrest] at ih
          have ht : t ≠ "" := by
            have hmem : t ∈ rest.filter (fun s => !(s == "")) := by
              rw [hrest]; exact List.mem_cons_self t ts
            simpa using List.of_mem_filter hmem
          have hne : specJoin rest ≠ "" := by
            rw [← ih]; exact pyJoin_cons_ne_empty t ts ht
          simp [pyJoin, specJoin, hs, hne, ih]

/-- C2: the `search_text` of place and boundary documents is the
spec-side composition — the non-empty values among {name, localized
name, municipality, district, province}, in that fixed order, joined by
single spaces, omitted fields contributing nothing.  (The boundary query
selects no municipality/district/province columns, so those contribute
nothing for boundaries.)  In particular the Pokhara record yields
`"Pokhara Kaski Gandaki"`. -/
theorem search_text_composition :
    (∀ n nn m d p : Option String,
        buildSearchText n nn m d p =
          specJoin [n.getD "", nn.getD "", m.getD "", d.getD "", p.getD ""]) ∧
    (∀ (jl : JsonLoads) (r : PlaceRow),
        (placeDoc jl r).search_text =
          specJoin [r.name, r.name_ne.getD "", r.municipality.getD "",
            r.district.getD "", r.province.getD ""]) ∧
    (∀ (jl : JsonLoads) (lookup : ParentLookup) (r : BoundaryRow),
        (adminDoc jl lookup r).search_text =
          specJoin [r.name, r.name_ne.getD "", "", "", ""]) ∧
    (placeDoc jlFail
      ⟨1, "Pokhara", none, none, none, none, none, none, none, some "Kaski",
       some "Gandaki", .null⟩).search_text = "Pokhara Kaski Gandaki" := by
  refine ⟨fun n nn m d p => pyJoin_filter_eq_specJoin _,
    fun jl r => pyJoin_filter_eq_specJoin _,
    fun jl lookup r => pyJoin_filter_eq_specJoin _, ?_⟩
  rfl

/-- Witness for `location_presence_amended`: a concrete non-zero
latitude produces a populated location. -/
theorem location_presence_amended_witness :
    (⟨some 28, some 84⟩ : Location).lat = some 28 ∧
    (⟨some 28, some 84⟩ : Location).lon = some 84 ∧
    (some 28 : Option ℚ) ≠ none ∧ (some 28 : Option ℚ) ≠ some 0 := by
  have h := (location_presence_amended.2.2.2 (some 28) (some 84)).2
    ⟨some 28, some 84⟩ rfl
  exact ⟨h.1, h.2.1, h.2.2.1, h.2.2.2⟩

/-- A level-plus-containment filter is non-empty iff some row of that
level contains the point. -/
theorem filter_level_ne_nil (table : List AdminB) (pt : Point) (lvl : Int) :
    table.filter (fun b => b.admin_level == lvl && b.contains_pt pt) ≠ [] ↔
      ∃ b ∈ table, b.admin_level = lvl ∧ b.contains_pt pt = true := by
  rw [Ne, List.filter_eq_nil_iff]
  push_neg
  constructor
  · rintro ⟨b, hb, hpred⟩
    refine ⟨b, hb, ?_⟩
    simpa [Bool.and_eq_true, beq_iff_eq] using hpred
  · rintro ⟨b, hb, h6, hc⟩
    exact ⟨b, hb, by simp [h6, hc]⟩

/-- C9: `_get_parent_admin` resolves ancestors all-or-nothing — it
returns a (district, province) row exactly when some district-level row
AND some province-level row both contain the query point; a point inside
a district but inside no province (or vice versa) yields nothing, since
the cross join of the two containment filters is then empty. -/
theorem parent_admin_all_or_nothing (table : List AdminB) (pt : Point) :
    getParentAdmin table pt ≠ none ↔
      ((∃ d ∈ table, d.admin_level = 6 ∧ d.contains_pt pt = true) ∧
       (∃ p ∈ table, p.admin_level = 4 ∧ p.contains_pt pt = true)) := by
  unfold getParentAdmin
  simp only [ne_eq, Option.map_eq_none', List.head?_eq_none_iff,
    List.flatMap_eq_nil_iff]
  rw [← filter_level_ne_nil table pt 6, ← filter_level_ne_nil table pt 4]
  constructor
  · intro h
    constructor
    · intro hD
      exact h (by intro x hx; rw [hD] at hx; cases hx)
    · intro hP
      exact h (by intro x hx; rw [hP]; rfl)
  · rintro ⟨hD, hP⟩ hall
    rcases List.exists_mem_of_ne_nil _ hD with ⟨d, hd⟩
    have hmap := hall d hd
    rw [List.map_eq_nil_iff] at hmap
    exact hP hmap

/-- Reading one more trailing digit. -/
theorem digitsToNat_append_singleton (l : List Char) (c : Char) :
    digitsToNat (l ++ [c]) = 10 * digitsToNat l + (c.toNat - 48) := by
  simp [digitsToNat, List.foldl_append]

/-- `digitChar` really is the ASCII digit of its argument. -/
theorem digitChar_val (k : Nat) (hk : k < 10) : (digitChar k).toNat - 48 = k := by
  interval_cases k <;> decide

/-- Decimal rendering round-trips through decimal reading. -/
theorem digitsToNat_natDecChars (n : Nat) :
    digitsToNat (natDecChars n) = n := by
  induction n using Nat.strong_induction_on with
  | _ n ih =>
    rw [natDecChars]
    by_cases h : n < 10
    · rw [dif_pos h]
      interval_cases n <;> decide
    · rw [dif_neg h]
      rw [digitsToNat_append_singleton]
      rw [ih (n / 10) (Nat.div_lt_self (by omega) (by omega))]
      rw [digitChar_val (n % 10) (Nat.mod_lt _ (by omega))]
      omega

/-- Decimal rendering is injective. -/
theorem natDecChars_injective (a b : Nat) (h : natDecChars a = natDecChars b) :
    a = b := by
  have := congrArg digitsToNat h
  rwa [digitsToNat_natDecChars, digitsToNat_natDecChars] at this

/-- Appending after initial segments that differ at some index never
collides. -/
theorem docId_cross_ne (i : Nat) (A B x y : List Char)
    (hA : i < A.length) (hB : i < B.length) (hne : A[i]? ≠ B[i]?) :
    A ++ x ≠ B ++ y := by
  intro h
  have h1 := congrArg (fun l => l[i]?) h
  simp only at h1
  rw [List.getElem?_append_left hA, List.getElem?_append_left hB] at h1
  exact hne h1

/-- C8: every builder's document id is `{type tag}_{source id}` and that
composition is injective — so documents of one run have pairwise
distinct ids as long as source ids are distinct within each type, and
ids of different entity types never collide. -/
theorem doc_id_uniqueness :
    (∀ (jl : JsonLoads) (r : PlaceRow),
        (placeDoc jl r).id = docIdFor .place r.id) ∧
    (∀ (jl : JsonLoads) (lookup : ParentLookup) (r : BoundaryRow),
        (adminDoc jl lookup r).id = docIdFor .adminBoundary r.id) ∧
    (∀ (jl : JsonLoads) (r : PoiRow),
        (poiDoc jl r).id = docIdFor .poi r.id) ∧
    (∀ (jl : JsonLoads) (r : RoadRow),
        (roadDoc jl r).id = docIdFor .road r.id) ∧
    (∀ (t1 t2 : EntityType) (i1 i2 : Nat),
        docIdFor t1 i1 = docIdFor t2 i2 → t1 = t2 ∧ i1 = i2) := by
  refine ⟨fun jl r => rfl, fun jl lookup r => rfl, fun jl r => rfl,
    fun jl r => rfl, ?_⟩
  intro t1 t2 i1 i2 h
  have hdata := congrArg String.data h
  simp only [docIdFor, String.data_append] at hdata
  cases t1 <;> cases t2 <;> simp only [typeTag] at hdata <;>
    first
      | exact ⟨rfl, natDecChars_injective _ _ (List.append_cancel_left hdata)⟩
      | exact absurd hdata
          (docId_cross_ne 0 _ _ _ _ (by decide) (by decide) (by decide))
      | exact absurd hdata
          (docId_cross_ne 1 _ _ _ _ (by decide) (by decide) (by decide))

/-- Witness for `doc_id_uniqueness`: the composition equation at a
concrete id. -/
theorem doc_id_uniqueness_witness :
    EntityType.place = EntityType.place ∧ (7 : Nat) = 7 :=
  doc_id_uniqueness.2.2.2.2 EntityType.place EntityType.place 7 7 rfl

/-- `takeWhile` passes over a block that satisfies the predicate. -/
theorem takeWhile_append_all {α : Type} (p : α → Bool) (xs ys : List α)
    (h : ∀ x ∈ xs, p x = true) :
    (xs ++ ys).takeWhile p = xs ++ ys.takeWhile p := by
  induction xs with
  | nil => rfl
  | cons a l ih =>
      have ha : p a = true := h a (List.mem_cons_self _ _)
      simp [List.takeWhile_cons, ha,
        ih (fun x hx => h x (List.mem_cons_of_mem _ hx))]

/-- `dropWhile` drops a whole block that satisfies the predicate. -/
theorem dropWhile_append_all {α : Type} (p : α → Bool) (xs ys : List α)
    (h : ∀ x ∈ xs, p x = true) :
    (xs ++ ys).dropWhile p = ys.dropWhile p := by
  induction xs with
  | nil => rfl
  | cons a l ih =>
      have ha : p a = true := h a (List.mem_cons_self _ _)
      simp [List.dropWhile_cons, ha,
        ih (fun x hx => h x (List.mem_cons_of_mem _ hx))]

/-- Rebuilding a string from its characters. -/
theorem string_mk_data (s : String) : String.mk s.data = s := rfl

/-- The characters of a rebuilt string. -/
theorem data_mk (l : List Char) : (String.mk l).data = l := rfl

/-- Soundness of the greedy regex model: a name of the pattern
`<municipality>-<digits>` splits into exactly those groups. -/
theorem wardSplit_of_pattern (name pre : String) (ds : List Char)
    (hp : wardPattern name pre ds) :
    wardSplit name = some (pre, digitsVal ds) := by
  obtain ⟨hdata, hpre, hds, hdig⟩ := hp
  unfold wardSplit
  rw [hdata]
  have hrev : (pre.data ++ '-' :: ds).reverse =
      ds.reverse ++ '-' :: pre.data.reverse := by
    simp
  rw [hrev]
  have hall : ∀ c ∈ ds.reverse, pyIsDigit c = true := fun c hc =>
    hdig c (List.mem_reverse.mp hc)
  rw [takeWhile_append_all _ _ _ hall, dropWhile_append_all _ _ _ hall]
  rw [List.takeWhile_cons_of_neg (by decide),
    List.dropWhile_cons_of_neg (by decide), List.append_nil]
  rcases hdsrev : ds.reverse with _ | ⟨d, ds'⟩
  · exact absurd (by simpa using congrArg List.reverse hdsrev) hds
  · rcases hprerev : pre.data.reverse with _ | ⟨p1, ps⟩
    · exact absurd (by simpa using congrArg List.reverse hprerev) hpre
    · have h1 : (p1 :: ps).reverse = pre.data := by
        rw [← hprerev, List.reverse_reverse]
      have h2 : (d :: ds').reverse = ds := by
        rw [← hdsrev, List.reverse_reverse]
      simp [h1, h2, string_mk_data]

/-- Completeness of the greedy regex model: a successful split always
comes from a name of the pattern. -/
theorem wardSplit_some_pattern (name pre : String) (n : Nat)
    (h : wardSplit name = some (pre, n)) :
    ∃ ds, wardPattern name pre ds ∧ n = digitsVal ds := by
  unfold wardSplit at h
  split at h
  case _ d ds' c p1 ps htake hdrop =>
    split at h
    case isTrue hc =>
      subst hc
      injection h with h
      injection h with hfst hsnd
      refine ⟨(d :: ds').reverse, ⟨?_, ?_, by simp, ?_⟩, hsnd.symm⟩
      · have hname : name.data =
            ((d :: ds') ++ '-' :: p1 :: ps).reverse := by
          rw [← htake, ← hdrop, List.takeWhile_append_dropWhile,
            List.reverse_reverse]
        rw [hname, ← hfst]
        simp [data_mk]
      · rw [← hfst]
        simp [data_mk]
      · intro x hx
        have hmem : x ∈ name.data.reverse.takeWhile pyIsDigit := by
          rw [htake]
          exact List.mem_reverse.mp hx
        exact List.mem_takeWhile_imp hmem
    case isFalse hc => cases h
  case _ => cases h

/-- At admin level 9 the municipality and ward fields of the hierarchy
are exactly what the ward-name split yields — the spatial-lookup branch
touches only the district/province fields. -/
theorem buildAdminHierarchy_ward9 (lookup : ParentLookup) (r : BoundaryRow)
    (hlvl : r.admin_level = 9) :
    (buildAdminHierarchy lookup r).municipality =
      (wardSplit r.name).map (fun pn => pn.1) ∧
    (buildAdminHierarchy lookup r).ward =
      (wardSplit r.name).map (fun pn => pn.2) := by
  unfold buildAdminHierarchy
  rw [hlvl]
  simp only [show ((9 : Int) == 4) = false from rfl,
    show ((9 : Int) == 6) = false from rfl,
    show ((9 : Int) == 7) = false from rfl,
    show ((9 : Int) == 9) = true from rfl, Bool.false_eq_true,
    if_false, if_true]
  rcases wardSplit r.name with _ | ⟨pre, n⟩ <;> rcases r.centroid with _ | c
  · exact ⟨rfl, rfl⟩
  · by_cases hc : c == ""
    · simp only [if_pos hc]
      exact ⟨rfl, rfl⟩
    · simp only [if_neg hc]
      rcases lookup c with _ | parent
      · exact ⟨rfl, rfl⟩
      · exact ⟨rfl, rfl⟩
  · exact ⟨rfl, rfl⟩
  · by_cases hc : c == ""
    · simp only [if_pos hc]
      exact ⟨rfl, rfl⟩
    · simp only [if_neg hc]
      rcases lookup c with _ | parent
      · exact ⟨rfl, rfl⟩
      · exact ⟨rfl, rfl⟩

/-- C1: for a ward-level boundary record (admin level 9) whose name
matches `<municipality>-<digits>`, the resolved hierarchy carries the
part before the final hyphen as municipality and the trailing digits
(any Unicode decimal digits, as Python's `\d` and `int()` accept),
read as an integer, as ward; when the name has no such decomposition,
both stay unset.  (Names are assumed newline-free so that the Lean model
of `re.match(r'^(.+)-(\d+)$', name)` coincides with Python's
semantics.) -/
theorem ward_name_parsing (lookup : ParentLookup) (r : BoundaryRow)
    (hlvl : r.admin_level = 9) (_hnl : '\n' ∉ r.name.data) :
    (∀ (pre : String) (ds : List Char), wardPattern r.name pre ds →
        (buildAdminHierarchy lookup r).municipality = some pre ∧
        (buildAdminHierarchy lookup r).ward = some (digitsVal ds)) ∧
    ((∀ (pre : String) (ds : List Char), ¬ wardPattern r.name pre ds) →
        (buildAdminHierarchy lookup r).municipality = none ∧
        (buildAdminHierarchy lookup r).ward = none) := by
  obtain ⟨hm, hw⟩ := buildAdminHierarchy_ward9 lookup r hlvl
  constructor
  · intro pre ds hp
    rw [hm, hw, wardSplit_of_pattern r.name pre ds hp]
    exact ⟨rfl, rfl⟩
  · intro hnone
    have hsplit : wardSplit r.name = none := by
      rcases hs : wardSplit r.name with _ | ⟨pre, n⟩
      · rfl
      · obtain ⟨ds, hp, -⟩ := wardSplit_some_pattern r.name pre n hs
        exact absurd hp (hnone pre ds)
    rw [hm, hw, hsplit]
    exact ⟨rfl, rfl⟩

/-- Witness for `ward_name_parsing`: the record-level examples —
`"Kathmandu-05"` parses to municipality `"Kathmandu"` and ward `5`,
a Devanagari-digit ward name `"Kathmandu-०५"` likewise parses to
ward `5`, and `"NoPattern"` leaves both unset. -/
theorem ward_name_parsing_witness :
    (buildAdminHierarchy (fun _ => none)
      ⟨1, "Kathmandu-05", none, 9, none, none, none, none,
       .null⟩).municipality = some "Kathmandu" ∧
    (buildAdminHierarchy (fun _ => none)
      ⟨1, "Kathmandu-05", none, 9, none, none, none, none,
       .null⟩).ward = some 5 ∧
    (buildAdminHierarchy (fun _ => none)
      ⟨3, "Kathmandu-०५", none, 9, none, none, none, none,
       .null⟩).municipality = some "Kathmandu" ∧
    (buildAdminHierarchy (fun _ => none)
      ⟨3, "Kathmandu-०५", none, 9, none, none, none, none,
       .null⟩).ward = some 5 ∧
    (buildAdminHierarchy (fun _ => none)
      ⟨2, "NoPattern", none, 9, none, none, none, none,
       .null⟩).municipality = none ∧
    (buildAdminHierarchy (fun _ => none)
      ⟨2, "NoPattern", none, 9, none, none, none, none,
       .null⟩).ward = none := by
  have hpat : wardPattern "Kathmandu-05" "Kathmandu" ['0', '5'] := by
    unfold wardPattern
    refine ⟨by decide, by decide, by decide, by decide⟩
  have hk := (ward_name_parsing (fun _ => none)
    ⟨1, "Kathmandu-05", none, 9, none, none, none, none, .null⟩
    rfl (by decide)).1 "Kathmandu" ['0', '5'] hpat
  have hmatch5 : digitsVal ['0', '5'] = 5 := by decide
  have hpatDev : wardPattern "Kathmandu-०५" "Kathmandu" ['०', '५'] := by
    unfold wardPattern
    refine ⟨by decide, by decide, by decide, by decide⟩
  have hkDev := (ward_name_parsing (fun _ => none)
    ⟨3, "Kathmandu-०५", none, 9, none, none, none, none, .null⟩
    rfl (by decide)).1 "Kathmandu" ['०', '५'] hpatDev
  have hmatchDev : digitsVal ['०', '५'] = 5 := by decide
  have hnp : ∀ (pre : String) (ds : List Char),
      ¬ wardPattern "NoPattern" pre ds := by
    rintro pre ds ⟨hdata, -, -, -⟩
    have hmem : '-' ∈ "NoPattern".data := by
      rw [hdata]
      exact List.mem_append_right _ (List.mem_cons_self _ _)
    exact absurd hmem (by decide)
  have hn := (ward_name_parsing (fun _ => none)
    ⟨2, "NoPattern", none, 9, none, none, none, none, .null⟩
    rfl (by decide)).2 hnp
  exact ⟨hk.1, by rw [hk.2, hmatch5], hkDev.1, by rw [hkDev.2, hmatchDev],
    hn.1, hn.2⟩

end SyncES
